import Mathlib

/-!
Shallow embedding of the WhatsApp attendance system's GPS validation,
fraud heuristics, block management, and employee state machine
(`src/backend/gps-validation.js`).

Conventions of the embedding:
* JavaScript numbers are modelled as `ℚ` (coordinates, accuracies,
  fractional minute/hour quantities) and `ℤ` (epoch timestamps in
  milliseconds, rounded distances in meters).
* A possibly-`undefined` field is an `Option`; JavaScript truthiness of a
  numeric field (`!x`) is `qTruthy` (absent or zero is falsy).
* `Math.round` is `jsRound` (round half up, as in JS for positive and
  negative arguments alike: `Math.round(x) = ⌊x + 0.5⌋`); `Math.ceil` is
  `Int.ceil`; `Math.floor` is `Int.floor`.
* The haversine helper `calculateDistance` uses IEEE-754 transcendental
  functions, which have no exact executable counterpart; every definition
  that calls it is therefore parametrised by an arbitrary rounded distance
  function `dist : ℚ → ℚ → ℚ → ℚ → ℤ` (arguments `lat1 lng1 lat2 lng2`,
  result in meters).  All theorems below quantify over `dist`; witnesses
  instantiate it with concrete functions that agree with the haversine
  formula on the points used (for instance, distance `0` between a point
  and itself).
* `detectPerfectCoordinates` inspects the decimal string produced by the
  IEEE-754 `Number.prototype.toString`; it is likewise abstracted as a
  parameter `pf : ℚ → ℚ → List SuspiciousFlag`.
* Each distinct user-visible message template of the source is represented
  by one constructor of the `Msg` inductive, carrying the data that is
  interpolated into it.
-/

/-- Severity of a suspicious flag (`'LOW' | 'MEDIUM' | 'HIGH'`). -/
inductive Severity where
  | LOW
  | MEDIUM
  | HIGH
deriving DecidableEq, Repr

/-- A suspicious flag pushed by one of the fraud analyzers
(`{type, severity, message}`; the message is a function of the type and the
interpolated data, so we keep type and severity). -/
structure SuspiciousFlag where
  type : String
  severity : Severity
deriving DecidableEq, Repr

/-- Fraud risk level (`'LOW' | 'MEDIUM' | 'HIGH' | 'BLOCKED'`). -/
inductive Risk where
  | LOW
  | MEDIUM
  | HIGH
  | BLOCKED
deriving DecidableEq, Repr

/-- A named circular authorized zone (element of `AUTHORIZED_LOCATIONS`). -/
structure Zone where
  id : ℤ
  name : String
  lat : ℚ
  lng : ℚ
  radius : ℤ
deriving DecidableEq, Repr

/-- The location payload handed to the validators
(`{latitude, longitude, accuracy, timestamp}`, each possibly undefined;
the timestamp is in epoch seconds). -/
structure LocationData where
  latitude : Option ℚ
  longitude : Option ℚ
  accuracy : Option ℚ
  timestamp : Option ℤ
deriving DecidableEq, Repr

/-- One entry of a user's location history ring buffer
(`{lat, lng, timestamp, accuracy: null}`). -/
structure HistoryEntry where
  lat : ℚ
  lng : ℚ
  timestamp : ℤ
deriving DecidableEq, Repr

/-- One template of the user-visible reason/warning messages built by the
validators.  Each constructor corresponds to exactly one `push` site in the
source and carries the data interpolated into the message. -/
inductive Msg where
  | missingCoords
  | tooOld (ageMinutes : ℤ)
  | recentLocation (ageMinutes : ℤ)
  | insufficientAccuracy (accuracy : Option ℚ)
  | accuracyOk (accuracy : ℚ)
  | notAuthorizedMsg (distance : ℤ) (closest : Option Zone)
  | authorizedMsg (zoneName : String) (distance : ℤ)
  | blockedRemaining (minutes : ℤ)
  | blockedWarnings (warnings : ℕ)
  | suspiciousSignals (count : ℕ)
  | fraudHighRejected
deriving DecidableEq, Repr

/-- JavaScript truthiness of a possibly-absent number: `undefined`, `null`
and `0` are falsy. -/
def qTruthy : Option ℚ → Bool
  | none => false
  | some x => x != 0

/-- JavaScript truthiness of a possibly-absent integer timestamp. -/
def zTruthy : Option ℤ → Bool
  | none => false
  | some x => x != 0

/-- `Math.round` on a rational: round half toward positive infinity. -/
def jsRound (q : ℚ) : ℤ := ⌊q + 1/2⌋

-- ==========================================
-- GeoFence (`calculateDistance`, `isLocationAuthorized`)
-- ==========================================

/-- The four authorized access points (`AUTHORIZED_LOCATIONS`). -/
def AUTHORIZED_LOCATIONS : List Zone :=
  [ ⟨1, "Valle de los Ciervos", -37.371644652229655, -59.116792790280606, 100⟩
  , ⟨2, "Refugio del Valle", -37.37247355171709, -59.11563111651744, 100⟩
  , ⟨3, "Explora Tandil", -37.33880343035198, -59.131626087683635, 100⟩
  , ⟨4, "Oficina de Desarrollo (Testing)", -34.689821911341554, -58.61410910531587, 100⟩ ]

/-- Result of `isLocationAuthorized`: either the first matching zone with
its distance, or the nearest zone with its distance (absent for an empty
zone list, where the source would hold `closestLocation = null` and
`minDistance = Infinity`). -/
inductive AuthResult where
  | authorized (zone : Zone) (distance : ℤ)
  | notAuthorized (closest : Option (Zone × ℤ))
deriving DecidableEq, Repr

/-- Second loop of `isLocationAuthorized`: the strictly-nearest zone,
keeping the first zone on ties (`distance < minDistance`, starting from
`Infinity`). -/
def closestZone (dist : ℚ → ℚ → ℚ → ℚ → ℤ) (userLat userLng : ℚ) :
    List Zone → Option (Zone × ℤ) :=
  fun zones => zones.foldl
    (fun acc z =>
      let d := dist userLat userLng z.lat z.lng
      match acc with
      | none => some (z, d)
      | some (_, m) => if d < m then some (z, d) else acc)
    none

/-- First loop of `isLocationAuthorized`: scan the zone list in order and
return upon the first zone whose distance is at most its own radius;
otherwise report the nearest zone.  The source reads the module-global
`AUTHORIZED_LOCATIONS`; the list is a parameter here so the configuration
can be quantified over. -/
def isLocationAuthorized (dist : ℚ → ℚ → ℚ → ℚ → ℤ) (userLat userLng : ℚ)
    (zones : List Zone) : AuthResult :=
  match zones.find? (fun z => dist userLat userLng z.lat z.lng ≤ z.radius) with
  | some z => .authorized z (dist userLat userLng z.lat z.lng)
  | none => .notAuthorized (closestZone dist userLat userLng zones)

-- ==========================================
-- Basic validators
-- ==========================================

/-- Result shape shared by `isLocationTimestampValid` and
`isLocationAccuracyValid`: validity plus the message pushed. -/
structure CheckResult where
  isValid : Bool
  message : Msg
deriving DecidableEq, Repr

/-- `isLocationTimestampValid`: the reading's age in minutes is
`(now − timestamp·1000) / 60000`; invalid if the age exceeds
`GPS_CONFIG.MAX_AGE_MINUTES = 2`. -/
def isLocationTimestampValid (now : ℤ) (timestamp : ℤ) : CheckResult :=
  let ageMinutes : ℚ := ((now - timestamp * 1000 : ℤ) : ℚ) / 60000
  if ageMinutes > 2 then ⟨false, .tooOld (jsRound ageMinutes)⟩
  else ⟨true, .recentLocation (jsRound ageMinutes)⟩

/-- `isLocationAccuracyValid`: invalid if the accuracy is falsy or exceeds
`GPS_CONFIG.MIN_ACCURACY = 50` meters. -/
def isLocationAccuracyValid (accuracy : Option ℚ) : CheckResult :=
  if !qTruthy accuracy ∨ (accuracy.getD 0) > 50 then
    ⟨false, .insufficientAccuracy accuracy⟩
  else ⟨true, .accuracyOk (accuracy.getD 0)⟩

/-- Result of `validateGPSLocation` (`validationResults`). -/
structure BasicResult where
  isValid : Bool
  reasons : List Msg
  location : Option Zone
  distance : Option ℤ
  warnings : List Msg
  closestLocation : Option Zone
deriving DecidableEq, Repr

/-- `validateGPSLocation`: coordinate presence, timestamp freshness (only
when a truthy timestamp is supplied), accuracy (only when the accuracy
field is not `undefined`), then geofence authorization, with an early
return at the first failure. -/
def validateGPSLocation (dist : ℚ → ℚ → ℚ → ℚ → ℤ) (zones : List Zone)
    (locationData : LocationData) (now : ℤ) : BasicResult :=
  if !(qTruthy locationData.latitude ∧ qTruthy locationData.longitude) then
    ⟨false, [.missingCoords], none, none, [], none⟩
  else
    let userLat := locationData.latitude.getD 0
    let userLng := locationData.longitude.getD 0
    let tsStep : Bool × List Msg :=
      match locationData.timestamp with
      | some ts =>
        if ts ≠ 0 then
          let c := isLocationTimestampValid now ts
          (c.isValid, [c.message])
        else (true, [])
      | none => (true, [])
    if !tsStep.1 then
      ⟨false, tsStep.2, none, none, [], none⟩
    else
      let tsWarnings := tsStep.2
      let accStep : Bool × List Msg :=
        match locationData.accuracy with
        | some _ =>
          let c := isLocationAccuracyValid locationData.accuracy
          (c.isValid, [c.message])
        | none => (true, [])
      if !accStep.1 then
        ⟨false, accStep.2, none, none, tsWarnings, none⟩
      else
        let warnings := tsWarnings ++ accStep.2
        match isLocationAuthorized dist userLat userLng zones with
        | .authorized z d =>
          ⟨true, [.authorizedMsg z.name d], some z, some d, warnings, none⟩
        | .notAuthorized closest =>
          ⟨false, [.notAuthorizedMsg ((closest.map Prod.snd).getD 0) (closest.map Prod.fst)],
            none, closest.map Prod.snd, warnings, closest.map Prod.fst⟩

-- ==========================================
-- Fraud Heuristics Engine
-- ==========================================

/-- `validateGPSMetadata`: suspiciously exact accuracy (floored value in
`SUSPICIOUS_ACCURACY_VALUES = [1,2,3]`), missing timestamp, and accuracy
outside `EXPECTED_ACCURACY_RANGE = [5,100]`. -/
def validateGPSMetadata (accuracy : Option ℚ) (timestamp : Option ℤ) :
    List SuspiciousFlag :=
  (if qTruthy accuracy ∧ (⌊accuracy.getD 0⌋ = 1 ∨ ⌊accuracy.getD 0⌋ = 2 ∨ ⌊accuracy.getD 0⌋ = 3)
   then [⟨"SUSPICIOUS_ACCURACY", .MEDIUM⟩] else [])
  ++ (if !zTruthy timestamp then [⟨"MISSING_TIMESTAMP", .HIGH⟩] else [])
  ++ (if qTruthy accuracy ∧ (accuracy.getD 0 < 5 ∨ accuracy.getD 0 > 100)
      then [⟨"ABNORMAL_ACCURACY", .LOW⟩] else [])

/-- Number of consecutive entries immediately before the final entry of
the history that carry exactly the same coordinates as it (the backwards
loop with `break` of `analyzeLocationHistory`, analysis 1). -/
def countTrailingIdentical (history : List HistoryEntry) : ℕ :=
  match history.getLast? with
  | none => 0
  | some last =>
    (history.dropLast.reverse.takeWhile
      (fun p => p.lat == last.lat && p.lng == last.lng)).length

/-- Sum of `|Δlat| + |Δlng|` over consecutive pairs (analysis 2 of
`analyzeLocationHistory`). -/
def totalVariation (recent : List HistoryEntry) : ℚ :=
  (recent.zip recent.tail).foldl
    (fun acc p => acc + |p.2.lat - p.1.lat| + |p.2.lng - p.1.lng|) 0

/-- `analyzeLocationHistory`: push the current reading onto the user's
history (keeping at most 10 entries, FIFO), then run the three stateful
analyses.  `timestamp` is the raw GPS timestamp (seconds); a falsy
timestamp is replaced by the current epoch milliseconds
(`timestamp || Date.now()`), exactly as in the source.  Returns the
updated history and the flags produced.  (The source also returns a
`riskLevel` field that no caller reads; it is omitted.) -/
def analyzeLocationHistory (dist : ℚ → ℚ → ℚ → ℚ → ℤ)
    (history : List HistoryEntry) (currentLat currentLng : ℚ)
    (timestamp : Option ℤ) (now : ℤ) :
    List HistoryEntry × List SuspiciousFlag :=
  let entry : HistoryEntry :=
    ⟨currentLat, currentLng, if zTruthy timestamp then timestamp.getD 0 else now⟩
  let pushed := history ++ [entry]
  let hist := if pushed.length > 10 then pushed.tail else pushed
  let identFlags :=
    if hist.length ≥ 2 ∧ countTrailingIdentical hist ≥ 3
    then [(⟨"IDENTICAL_LOCATIONS", .HIGH⟩ : SuspiciousFlag)] else []
  let variationFlags :=
    if hist.length ≥ 3 ∧ totalVariation (hist.drop (hist.length - 3)) < 1/100000
    then [(⟨"LOW_GPS_VARIATION", .MEDIUM⟩ : SuspiciousFlag)] else []
  let speedFlags :=
    match (hist.drop (hist.length - 2)) with
    | [previous, current] =>
      let distance := dist previous.lat previous.lng current.lat current.lng
      let timeDiff : ℚ := ((current.timestamp - previous.timestamp : ℤ) : ℚ) / 1000
      -- JS: with `timeDiff = 0` the speed is `Infinity` when the distance
      -- is positive and `NaN` when it is zero; `NaN > 100` is false.
      let speedExceeds :=
        if timeDiff = 0 then (distance : ℚ) > 0
        else ((distance : ℚ) / 1000) / (timeDiff / 3600) > 100
      if speedExceeds ∧ distance > 1000
      then [(⟨"IMPOSSIBLE_SPEED", .HIGH⟩ : SuspiciousFlag)] else []
    | _ => []
  (hist, identFlags ++ variationFlags ++ speedFlags)

-- ==========================================
-- Risk Aggregator & Block Manager (`manageSuspiciousUser`)
-- ==========================================

/-- One entry of a user's bounded incident log. -/
structure Incident where
  timestamp : ℤ
  flags : List SuspiciousFlag
deriving DecidableEq, Repr

/-- Per-user suspicious-activity record (`suspiciousActivityLog` values). -/
structure SuspiciousLog where
  warnings : ℕ
  lastWarning : Option ℤ
  isBlocked : Bool
  blockUntil : Option ℤ
  incidents : List Incident
deriving DecidableEq, Repr

/-- The record created on a user's first suspicious-activity lookup. -/
def initLog : SuspiciousLog := ⟨0, none, false, none, []⟩

/-- Return shape of `manageSuspiciousUser` (`{isBlocked, message}` or
`{isBlocked: false, warnings, message: null}`; the blocked returns carry
no `warnings` field, modelled as `0`). -/
structure ManageResult where
  isBlocked : Bool
  warnings : ℕ
  message : Option Msg
deriving DecidableEq, Repr

/-- `manageSuspiciousUser`: report an active block (with the remaining
minutes, `Math.ceil`-rounded); otherwise auto-unblock an expired block and
reset the warning counter to zero; then add one warning per HIGH-severity
flag, append the incident (keeping at most 20, FIFO), and impose a
30-minute block once the counter reaches
`MAX_WARNINGS_PER_USER = 5`.  A `null` `blockUntil` compares as `0`, as in
JavaScript.  Returns the updated record and the result object. -/
def manageSuspiciousUser (log? : Option SuspiciousLog) (now : ℤ)
    (suspiciousFlags : List SuspiciousFlag) : SuspiciousLog × ManageResult :=
  let log := log?.getD initLog
  let buV := log.blockUntil.getD 0
  if log.isBlocked ∧ buV > now then
    let remainingMinutes := ⌈((buV - now : ℤ) : ℚ) / 60000⌉
    (log, ⟨true, 0, some (.blockedRemaining remainingMinutes)⟩)
  else
    let log1 := if log.isBlocked then
        { log with isBlocked := false, blockUntil := none, warnings := 0 }
      else log
    let highSeverityFlags := suspiciousFlags.filter (fun f => f.severity == .HIGH)
    if highSeverityFlags.length > 0 then
      let w := log1.warnings + highSeverityFlags.length
      let incidents1 := log1.incidents ++ [⟨now, suspiciousFlags⟩]
      let incidents2 := if incidents1.length > 20 then incidents1.tail else incidents1
      let log2 := { log1 with
                    warnings := w
                    lastWarning := some now
                    incidents := incidents2 }
      if w ≥ 5 then
        (⟨w, some now, true, some (now + 30 * 60 * 1000), incidents2⟩,
         ⟨true, 0, some (.blockedWarnings w)⟩)
      else (log2, ⟨false, w, none⟩)
    else (log1, ⟨false, log1.warnings, none⟩)

/-- Risk level computed from the flag set of the current evaluation
(step 6 of `validateGPSLocationAdvanced`). -/
def riskOfFlags (flags : List SuspiciousFlag) : Risk :=
  let highRiskFlags := flags.filter (fun f => f.severity == .HIGH)
  let mediumRiskFlags := flags.filter (fun f => f.severity == .MEDIUM)
  if highRiskFlags.length ≥ 2 then .HIGH
  else if highRiskFlags.length ≥ 1 ∨ mediumRiskFlags.length ≥ 2 then .MEDIUM
  else .LOW

/-- Following the spec's words (§4.3): risk level from the flag set of
the current evaluation — HIGH if it contains at least 2 HIGH-severity
flags, otherwise MEDIUM if it contains at least 1 HIGH-severity flag or
at least 2 MEDIUM-severity flags, otherwise LOW.  Comparison definition
for the claim about the risk computed by the advanced validation. -/
def specRiskLevel (flags : List SuspiciousFlag) : Risk :=
  if 2 ≤ flags.countP (fun f => f.severity == .HIGH) then .HIGH
  else if 1 ≤ flags.countP (fun f => f.severity == .HIGH)
       ∨ 2 ≤ flags.countP (fun f => f.severity == .MEDIUM) then .MEDIUM
  else .LOW

-- ==========================================
-- Advanced validation (`validateGPSLocationAdvanced`)
-- ==========================================

/-- Result of `validateGPSLocationAdvanced` (`validationResults`). -/
structure AdvResult where
  isValid : Bool
  reasons : List Msg
  warnings : List Msg
  suspiciousFlags : List SuspiciousFlag
  fraudRisk : Risk
  location : Option Zone
  distance : Option ℤ
deriving DecidableEq, Repr

/-- Steps 8–11 of `validateGPSLocationAdvanced`: run the basic validation,
combine with the fraud risk, and append the suspicious-signals warning and
the high-risk rejection reason. -/
def advFinish (dist : ℚ → ℚ → ℚ → ℚ → ℤ) (zones : List Zone)
    (locationData : LocationData) (now : ℤ)
    (flags : List SuspiciousFlag) (risk : Risk) : AdvResult :=
  let original := validateGPSLocation dist zones locationData now
  let isValid := original.isValid ∧ risk ≠ .HIGH ∧ risk ≠ .BLOCKED
  { isValid := isValid
  , reasons := original.reasons ++ (if risk = .HIGH then [.fraudHighRejected] else [])
  , warnings := original.warnings ++
      (if flags.length > 0 then [.suspiciousSignals flags.length] else [])
  , suspiciousFlags := flags
  , fraudRisk := risk
  , location := original.location
  , distance := original.distance }

/-- `validateGPSLocationAdvanced`: check the user's block status, then the
presence of coordinates, run the three fraud analyzers (perfect
coordinates abstracted as `pf`, metadata, history — the history is updated
here), derive the risk level, let a HIGH-risk flag set accumulate warnings
(possibly triggering a block), and only then run the basic validation.
Returns the result together with the user's updated location history and
suspicious-activity record. -/
def validateGPSLocationAdvanced (dist : ℚ → ℚ → ℚ → ℚ → ℤ)
    (pf : ℚ → ℚ → List SuspiciousFlag) (zones : List Zone)
    (locationData : LocationData) (history : List HistoryEntry)
    (log? : Option SuspiciousLog) (now : ℤ) :
    AdvResult × List HistoryEntry × SuspiciousLog :=
  let step1 := manageSuspiciousUser log? now []
  if step1.2.isBlocked then
    (⟨false, step1.2.message.toList, [], [], .BLOCKED, none, none⟩, history, step1.1)
  else if !(qTruthy locationData.latitude ∧ qTruthy locationData.longitude) then
    (⟨false, [.missingCoords], [], [], .LOW, none, none⟩, history, step1.1)
  else
    let userLat := locationData.latitude.getD 0
    let userLng := locationData.longitude.getD 0
    let perfectCoordFlags := pf userLat userLng
    let metadataFlags := validateGPSMetadata locationData.accuracy locationData.timestamp
    let historyAnalysis :=
      analyzeLocationHistory dist history userLat userLng locationData.timestamp now
    let flags := perfectCoordFlags ++ metadataFlags ++ historyAnalysis.2
    let risk := riskOfFlags flags
    if risk = .HIGH then
      let step7 := manageSuspiciousUser (some step1.1) now flags
      if step7.2.isBlocked then
        (⟨false, step7.2.message.toList, [], flags, .BLOCKED, none, none⟩,
         historyAnalysis.1, step7.1)
      else
        (advFinish dist zones locationData now flags risk, historyAnalysis.1, step7.1)
    else
      (advFinish dist zones locationData now flags risk, historyAnalysis.1, step1.1)

-- ==========================================
-- Employee State Machine (`attendance-state-control`)
-- ==========================================

/-- Per-employee session (`employeeSessions` values).  The derived
`whatsappId`/`displayPhone` fields are presentation-only and omitted;
the user is identified by `phoneNumber` throughout. -/
structure Session where
  phoneNumber : String
  firstContact : ℤ
  lastActivity : ℤ
  messageCount : ℕ
  pendingAction : Option String
  pendingActionTime : Option ℤ
deriving DecidableEq, Repr

/-- A persisted attendance record (row of `attendance_records`). -/
structure AttendanceRecord where
  phoneNumber : String
  actionType : String
  latitude : Option ℚ
  longitude : Option ℚ
  locationName : Option String
  distance : Option ℤ
  validationStatus : String
  timestamp : ℤ
  accuracy : Option ℚ
  gpsTimestamp : Option ℤ
deriving DecidableEq, Repr

/-- One template of the warnings accumulated on an employee state.  Among
these, only `minGapWarn`'s source message contains the substring
`'minutos desde última acción'` that `validateAttendanceAction` later
searches for. -/
inductive Warning where
  | pendingWarn (action : String) (ageMinutes : ℤ)
  | missingExitWarn
  | excessiveHoursWarn (hours : ℤ)
  | minGapWarn
deriving DecidableEq, Repr

/-- The derived employee state computed by `getEmployeeCurrentState`
(cache bookkeeping fields and the embedded session are kept outside). -/
structure EmployeeState where
  phoneNumber : String
  currentStatus : String
  lastAction : Option String
  lastActionTime : Option ℤ
  todayEntries : ℕ
  todayExits : ℕ
  workingHours : ℚ
  canEnter : Bool
  canExit : Bool
  warnings : List Warning
  missingExit : Bool
  isWorkingHours : Bool
  pendingAction : Option String
deriving DecidableEq, Repr

/-- The pure core of `getEmployeeCurrentState`: derive the employee state
from the session, the most recent persisted record, today's records, the
current epoch milliseconds and the current local hour.  An expired pending
action (10 minutes or older) is silently cleared from the session, so the
possibly-updated session is returned alongside the state.
Thresholds are `STATE_CONTROL_CONFIG`: work-day window 6–22, at most 3
entries per day, 12-hour work cap, 2-hour missing-exit threshold past the
day end, 5-minute minimum gap. -/
def computeEmployeeState (session : Session)
    (lastRecord : Option AttendanceRecord)
    (todayRecords : List AttendanceRecord) (now : ℤ) (currentHour : ℕ) :
    EmployeeState × Session :=
  let validEntries := todayRecords.filter
    (fun r => r.actionType == "entrada" && r.validationStatus == "VALID")
  let validExits := todayRecords.filter
    (fun r => r.actionType == "salida" && r.validationStatus == "VALID")
  let isWH := decide (6 ≤ currentHour) && decide (currentHour ≤ 22)
  let pendingStep : Option String × List Warning × Session :=
    match session.pendingAction, session.pendingActionTime with
    | some a, some t =>
      let pendingAge : ℚ := ((now - t : ℤ) : ℚ) / 60000
      if pendingAge < 10 then (some a, [.pendingWarn a (jsRound pendingAge)], session)
      else (none, [],
        { session with pendingAction := none, pendingActionTime := none })
    | _, _ => (none, [], session)
  let pendingAct := pendingStep.1
  let pendWarns := pendingStep.2.1
  let session' := pendingStep.2.2
  let main : String × Option String × Option ℤ × ℚ × Bool × List Warning :=
    match lastRecord with
    | some r =>
      if r.validationStatus == "VALID" then
        let timeSince : ℚ := ((now - r.timestamp : ℤ) : ℚ) / 60000
        let inner : String × ℚ × Bool × List Warning :=
          if r.actionType == "entrada" then
            let wh := timeSince / 60
            let missing := decide (currentHour > 22) && decide (timeSince > 120)
            ("IN", wh, missing,
              (if missing then [Warning.missingExitWarn] else [])
              ++ (if wh > 12 then [Warning.excessiveHoursWarn (jsRound wh)] else []))
          else ("OUT", 0, false, [])
        let minGapWarns := if timeSince < 5 then [Warning.minGapWarn] else []
        (inner.1, some r.actionType, some r.timestamp, inner.2.1, inner.2.2.1,
         inner.2.2.2 ++ minGapWarns)
      else ("OUT", none, none, 0, false, [])
    | none => ("OUT", none, none, 0, false, [])
  let status := main.1
  ( { phoneNumber := session.phoneNumber
    , currentStatus := status
    , lastAction := main.2.1
    , lastActionTime := main.2.2.1
    , todayEntries := validEntries.length
    , todayExits := validExits.length
    , workingHours := main.2.2.2.1
    , canEnter := status == "OUT" && decide (validEntries.length < 3)
                  && isWH && pendingAct.isNone
    , canExit := status == "IN" && pendingAct.isNone
    , warnings := pendWarns ++ main.2.2.2.2.2
    , missingExit := main.2.2.2.2.1
    , isWorkingHours := isWH
    , pendingAction := pendingAct }
  , session' )

/-- `getLastAttendanceRecord`: the SQL `ORDER BY timestamp DESC LIMIT 1`
over the user's records (no filter on validation status), with the record
list kept in chronological order. -/
def getLastAttendanceRecord (records : List AttendanceRecord) :
    Option AttendanceRecord :=
  records.getLast?

/-- `getTodayAttendanceRecords`: the records whose timestamp falls on the
current calendar day, `isToday` abstracting the SQL
`DATE(timestamp) = CURDATE()` predicate. -/
def getTodayAttendanceRecords (records : List AttendanceRecord)
    (isToday : ℤ → Bool) : List AttendanceRecord :=
  records.filter (fun r => isToday r.timestamp)

/-- `getEmployeeCurrentState` on a user's chronological record list:
derive the state from the last record and today's records. -/
def getEmployeeCurrentStateOf (session : Session)
    (records : List AttendanceRecord) (isToday : ℤ → Bool) (now : ℤ)
    (currentHour : ℕ) : EmployeeState × Session :=
  computeEmployeeState session (getLastAttendanceRecord records)
    (getTodayAttendanceRecords records isToday) now currentHour

/-- Following the spec's words (state derivation, §4.4): the most recent
record with validation status VALID.  This is the comparison definition
for the refinement claim about `getLastAttendanceRecord`, which reads the
most recent record regardless of status. -/
def lastValidatedRecord (records : List AttendanceRecord) :
    Option AttendanceRecord :=
  (records.filter (fun r => r.validationStatus == "VALID")).getLast?

/-- One deny/allow reason of `validateAttendanceAction`.  Each constructor
corresponds to one assignment of `validation.reason` in the source (the
suggestion list is a function of the reason and is omitted). -/
inductive VReason where
  | emptyReason
  | conflictPending (action : String)
  | outsideWorkHours
  | alreadyIn
  | entryLimitReached
  | minGapWait
  | entradaAllowed
  | exitWithoutEntry
  | alreadyExited
  | salidaAllowed (workingHours : ℚ)
deriving DecidableEq, Repr

/-- Result of `validateAttendanceAction`. -/
structure ActionValidation where
  isAllowed : Bool
  reason : VReason
deriving DecidableEq, Repr

/-- The decision logic of `validateAttendanceAction`, applied to the
freshly recomputed employee state (the source calls
`getEmployeeCurrentState(whatsappId, true)` first; the composition is
`validateAttendanceActionOf` below).  A *different* pending action is a
conflict; the same pending action falls through to the ordinary legality
rules.  The source detects the minimum-gap condition by searching the
warnings for the substring `'minutos desde última acción'`, which occurs
exactly in `minGapWarn`'s message. -/
def validateAttendanceAction (employeeState : EmployeeState)
    (requestedAction : String) : ActionValidation :=
  let conflict : Option String :=
    match employeeState.pendingAction with
    | some p => if p ≠ requestedAction then some p else none
    | none => none
  match conflict with
  | some p => ⟨false, .conflictPending p⟩
  | none =>
    if requestedAction == "entrada" then
      if !employeeState.isWorkingHours then ⟨false, .outsideWorkHours⟩
      else if employeeState.currentStatus == "IN" then ⟨false, .alreadyIn⟩
      else if employeeState.todayEntries ≥ 3 then ⟨false, .entryLimitReached⟩
      else if employeeState.warnings.contains .minGapWarn then ⟨false, .minGapWait⟩
      else ⟨true, .entradaAllowed⟩
    else if requestedAction == "salida" then
      if employeeState.currentStatus == "OUT" then
        if employeeState.todayExits == 0 then ⟨false, .exitWithoutEntry⟩
        else ⟨false, .alreadyExited⟩
      else if employeeState.warnings.contains .minGapWarn then ⟨false, .minGapWait⟩
      else ⟨true, .salidaAllowed employeeState.workingHours⟩
    else ⟨false, .emptyReason⟩

-- ==========================================
-- Validation Orchestrator (the `whatsappClient.on('message')` handler)
-- ==========================================

/-- The process-wide mutable state the message handler operates on: the
employee sessions, the handler's own pending-request map
(`pendingAttendanceRequests`), the per-user suspicious-activity log and
location history, and the persisted attendance records (chronological per
user).  The employee-state TTL cache is omitted: every handler path
computes the state with `forceRefresh = true`, so the cache is never
consulted by the flows modelled here. -/
structure SysState where
  sessions : String → Option Session
  pendingReqs : String → Option String
  fraud : String → Option SuspiciousLog
  history : String → List HistoryEntry
  records : String → List AttendanceRecord

/-- `getOrCreateEmployeeSession`: create a fresh session on first contact
(with no pending action), otherwise bump the activity timestamp and the
message counter.  Returns the session and the updated session map. -/
def getOrCreateEmployeeSession (user : String) (now : ℤ)
    (sessions : String → Option Session) :
    Session × (String → Option Session) :=
  match sessions user with
  | none =>
    let s : Session := ⟨user, now, now, 0, none, none⟩
    (s, fun u => if u = user then some s else sessions u)
  | some s =>
    let s' := { s with lastActivity := now, messageCount := s.messageCount + 1 }
    (s', fun u => if u = user then some s' else sessions u)

/-- `getEmployeeCurrentState` at the system level (forced refresh, as on
every handler path): fetch or create the session, derive the state from
the user's records, and store the possibly-updated session back. -/
def getEmployeeCurrentStateS (user : String) (now : ℤ) (currentHour : ℕ)
    (isToday : ℤ → Bool) (s : SysState) : EmployeeState × SysState :=
  let g := getOrCreateEmployeeSession user now s.sessions
  let es := getEmployeeCurrentStateOf g.1 (s.records user) isToday now currentHour
  (es.1, { s with sessions := fun u => if u = user then some es.2 else g.2 u })

/-- `validateAttendanceAction` at the system level: recompute the employee
state with a forced refresh, then apply the decision logic. -/
def validateAttendanceActionS (user : String) (requestedAction : String)
    (now : ℤ) (currentHour : ℕ) (isToday : ℤ → Bool) (s : SysState) :
    ActionValidation × SysState :=
  let r := getEmployeeCurrentStateS user now currentHour isToday s
  (validateAttendanceAction r.1 requestedAction, r.2)

/-- The record persisted by `saveAttendanceRecord` for a processed
reading: zone name only on a valid result, status `VALID`/`INVALID`, the
server timestamp `NOW()`. -/
def mkAttendanceRecord (user : String) (action : String)
    (locationData : LocationData) (result : AdvResult) (now : ℤ) :
    AttendanceRecord :=
  { phoneNumber := user
  , actionType := action
  , latitude := locationData.latitude
  , longitude := locationData.longitude
  , locationName := if result.isValid then result.location.map Zone.name else none
  , distance := result.distance
  , validationStatus := if result.isValid then "VALID" else "INVALID"
  , timestamp := now
  , accuracy := locationData.accuracy
  , gpsTimestamp := locationData.timestamp }

/-- An incoming WhatsApp event: a text message or a shared location. -/
inductive Incoming where
  | text (body : String)
  | location (loc : LocationData)

/-- The `whatsappClient.on('message')` handler, restricted to its state
effects (replies are pure functions of the values computed here and are
not modelled).  A shared location is processed only when the handler's own
`pendingAttendanceRequests` map holds a pending action for the user: the
entry is removed, the advanced validation runs (updating the user's fraud
state and history), and the attendance record is persisted.  An
"entrada"/"salida" text revalidates the employee state and, when allowed,
stores the pending action in `pendingAttendanceRequests` — the session's
`pendingAction` field is never written by any handler path
(`setPendingAction` is not among the handler's imports). -/
def handleMessage (dist : ℚ → ℚ → ℚ → ℚ → ℤ)
    (pf : ℚ → ℚ → List SuspiciousFlag) (zones : List Zone)
    (user : String) (msg : Incoming) (now : ℤ) (currentHour : ℕ)
    (isToday : ℤ → Bool) (s : SysState) : SysState :=
  match msg with
  | .location locationData =>
    match s.pendingReqs user with
    | some pendingAction =>
      let v := validateGPSLocationAdvanced dist pf zones locationData
        (s.history user) (s.fraud user) now
      let newRecord := mkAttendanceRecord user pendingAction locationData v.1 now
      { s with
        pendingReqs := fun u => if u = user then none else s.pendingReqs u
        history := fun u => if u = user then v.2.1 else s.history u
        fraud := fun u => if u = user then some v.2.2 else s.fraud u
        records := fun u => if u = user then s.records u ++ [newRecord]
                            else s.records u }
    | none => s
  | .text body =>
    let messageBody := body.toLower.trim
    if messageBody == "/entrada" || messageBody == "entrada" then
      let r := validateAttendanceActionS user "entrada" now currentHour isToday s
      if r.1.isAllowed then
        { r.2 with pendingReqs := fun u => if u = user then some "entrada"
                                           else r.2.pendingReqs u }
      else r.2
    else if messageBody == "/salida" || messageBody == "salida" then
      let r := validateAttendanceActionS user "salida" now currentHour isToday s
      if r.1.isAllowed then
        { r.2 with pendingReqs := fun u => if u = user then some "salida"
                                           else r.2.pendingReqs u }
      else r.2
    else if messageBody == "cancelar" || messageBody == "/cancelar" then
      { s with pendingReqs := fun u => if u = user then none else s.pendingReqs u }
    else if messageBody == "/ayuda" || messageBody == "ayuda" then s
    else if messageBody == "/estado" || messageBody == "estado" then
      (getEmployeeCurrentStateS user now currentHour isToday s).2
    else if messageBody == "/ubicaciones" || messageBody == "ubicaciones" then s
    else s

/-- No session in the map carries a pending action.  This is the invariant
of claim C9: the handler stores pending actions only in its own
`pendingAttendanceRequests` map. -/
def SessionsClean (sessions : String → Option Session) : Prop :=
  ∀ u sess, sessions u = some sess → sess.pendingAction = none

-- ==========================================
-- Concrete instantiations used by witnesses and counterexamples
-- ==========================================

/-- A concrete distance function for instantiating the abstract
`calculateDistance` parameter: distance `0` between identical coordinate
pairs (as the haversine formula gives), a distance far beyond every
configured radius otherwise. -/
def distZeroFar : ℚ → ℚ → ℚ → ℚ → ℤ :=
  fun lat1 lng1 lat2 lng2 => if lat1 == lat2 && lng1 == lng2 then 0 else 1000000000

/-- A concrete distance function that puts every zone 200 m away. -/
def dist200 : ℚ → ℚ → ℚ → ℚ → ℤ := fun _ _ _ _ => 200

/-- A concrete instantiation of the abstract `detectPerfectCoordinates`
parameter producing no flags; consistent with the source on the
coordinates used below (for example `1` has no run of three zeros, no
fractional digits, and does not end in `.000000`). -/
def pfNone : ℚ → ℚ → List SuspiciousFlag := fun _ _ => []

/-- A suspicious-activity record in an active block (`blockUntil`
100 000 ms). -/
def logBlocked : SuspiciousLog := ⟨5, none, true, some 100000, []⟩

/-- A VALID entrada record at timestamp 1000 ms. -/
def recEntradaValid : AttendanceRecord :=
  ⟨"5491111111111", "entrada", some 1, some 1, some "Valle de los Ciervos",
   some 0, "VALID", 1000, none, none⟩

/-- An INVALID salida record at timestamp 2000 ms, more recent than
`recEntradaValid`. -/
def recSalidaInvalid : AttendanceRecord :=
  ⟨"5491111111111", "salida", some 1, some 1, none, some 5, "INVALID", 2000,
   none, none⟩

/-- A fresh session with no pending action. -/
def sessionFresh : Session := ⟨"5491111111111", 0, 0, 0, none, none⟩

/-- An employee state with a pending `salida` awaiting its location. -/
def statePendingSalida : EmployeeState :=
  ⟨"5491111111111", "IN", some "entrada", some 0, 1, 0, 1, false, false,
   [.pendingWarn "salida" 0], false, true, some "salida"⟩

/-- Two overlapping zones at the same center with different radii. -/
def zoneA : Zone := ⟨1, "A", 0, 0, 50⟩

/-- Second of the two overlapping test zones. -/
def zoneB : Zone := ⟨2, "B", 0, 0, 80⟩

/-- The system state before any contact: no sessions, no pending
requests, no fraud records, no history, no attendance records. -/
def emptySys : SysState :=
  ⟨fun _ => none, fun _ => none, fun _ => none, fun _ => [], fun _ => []⟩

/-- A reading whose latitude is exactly 0 (both coordinate fields
present). -/
def ldZeroLat : LocationData := ⟨some 0, some 5, some 10, some 1⟩

/-- A reading 3 minutes old at epoch 60 000 000 ms (GPS timestamp
59 820 s), with both coordinates present and a good accuracy. -/
def ldStale : LocationData := ⟨some 1, some 1, some 10, some 59820⟩

/-- A reading exactly at the center of the first authorized zone, with
no accuracy and no timestamp supplied. -/
def ldCenterNoAcc : LocationData :=
  ⟨some (-37.371644652229655), some (-59.116792790280606), none, none⟩

/-- A reading with no fields at all (missing coordinates). -/
def ldNoCoords : LocationData := ⟨none, none, none, none⟩

-- ==========================================
-- Helper lemmas
-- ==========================================

/-- A successful `find?` returns the first element satisfying the
predicate: every earlier element fails it. -/
theorem find?_first {α : Type} (p : α → Bool) :
    ∀ (l : List α) (a : α), l.find? p = some a →
      ∃ (i : ℕ) (hi : i < l.length), l.get ⟨i, hi⟩ = a ∧ p a = true ∧
        ∀ j (hj : j < l.length), j < i → p (l.get ⟨j, hj⟩) = false := by
  intro l
  induction l with
  | nil => intro a h; simp [List.find?] at h
  | cons x xs ih =>
    intro a h
    by_cases hx : p x
    · rw [List.find?_cons_of_pos _ hx] at h
      injection h with h
      subst h
      exact ⟨0, by simp, rfl, hx, fun j hj hj0 => absurd hj0 (Nat.not_lt_zero j)⟩
    · rw [List.find?_cons_of_neg _ hx] at h
      obtain ⟨i, hi, hget, hpa, hfirst⟩ := ih a h
      refine ⟨i + 1, by simpa using Nat.succ_lt_succ hi, by simpa using hget, hpa, ?_⟩
      intro j hj hji
      match j with
      | 0 => simpa using Bool.eq_false_iff.mpr hx
      | j' + 1 =>
        rw [List.get_cons_succ]
        exact hfirst j' (by simpa using Nat.lt_of_succ_lt_succ hj) (Nat.lt_of_succ_lt_succ hji)

/-- Invariant of the nearest-zone fold: the accumulator stays a minimum of
the original accumulator and the distances of the traversed zones, and is
the first zone attaining it. -/
theorem closestZone_foldl_spec (dist : ℚ → ℚ → ℚ → ℚ → ℤ) (lat lng : ℚ) :
    ∀ (l : List Zone) (z0 : Zone) (d0 : ℤ),
      ∃ z' d',
        l.foldl (fun acc z =>
          let d := dist lat lng z.lat z.lng
          match acc with
          | none => some (z, d)
          | some (_, m) => if d < m then some (z, d) else acc) (some (z0, d0))
        = some (z', d') ∧
        (z' = z0 ∧ d' = d0 ∨ z' ∈ l ∧ d' = dist lat lng z'.lat z'.lng) ∧
        d' ≤ d0 ∧ ∀ w ∈ l, d' ≤ dist lat lng w.lat w.lng := by
  intro l
  induction l with
  | nil => intro z0 d0; exact ⟨z0, d0, rfl, Or.inl ⟨rfl, rfl⟩, le_refl d0, by simp⟩
  | cons z rest ih =>
    intro z0 d0
    by_cases hlt : dist lat lng z.lat z.lng < d0
    · obtain ⟨z', d', hfold, horigin, hle, hall⟩ := ih z (dist lat lng z.lat z.lng)
      refine ⟨z', d', ?_, ?_, le_of_lt (lt_of_le_of_lt hle hlt), ?_⟩
      · simpa [hlt] using hfold
      · rcases horigin with ⟨hz, hd⟩ | ⟨hmem, hd⟩
        · exact Or.inr ⟨by simp [hz], by rw [hz, hd]⟩
        · exact Or.inr ⟨List.mem_cons_of_mem z hmem, hd⟩
      · intro w hw
        rcases List.mem_cons.mp hw with hw | hw
        · rw [hw]; exact hle
        · exact hall w hw
    · obtain ⟨z', d', hfold, horigin, hle, hall⟩ := ih z0 d0
      refine ⟨z', d', ?_, ?_, hle, ?_⟩
      · simpa [hlt] using hfold
      · rcases horigin with h | ⟨hmem, hd⟩
        · exact Or.inl h
        · exact Or.inr ⟨List.mem_cons_of_mem z hmem, hd⟩
      · intro w hw
        rcases List.mem_cons.mp hw with hw | hw
        · rw [hw]; exact le_trans hle (not_lt.mp hlt)
        · exact hall w hw

/-- The nearest-zone computation on a nonempty zone list returns a member
achieving the minimum distance. -/
theorem closestZone_spec (dist : ℚ → ℚ → ℚ → ℚ → ℤ) (lat lng : ℚ)
    (zones : List Zone) (hne : zones ≠ []) :
    ∃ z d, closestZone dist lat lng zones = some (z, d) ∧ z ∈ zones ∧
      d = dist lat lng z.lat z.lng ∧
      ∀ w ∈ zones, d ≤ dist lat lng w.lat w.lng := by
  match zones, hne with
  | z :: rest, _ =>
    obtain ⟨z', d', hfold, horigin, hle, hall⟩ :=
      closestZone_foldl_spec dist lat lng rest z (dist lat lng z.lat z.lng)
    refine ⟨z', d', ?_, ?_, ?_, ?_⟩
    · simpa [closestZone] using hfold
    · rcases horigin with ⟨hz, _⟩ | ⟨hmem, _⟩
      · simp [hz]
      · exact List.mem_cons_of_mem z hmem
    · rcases horigin with ⟨hz, hd⟩ | ⟨_, hd⟩
      · rw [hz]; exact hd
      · exact hd
    · intro w hw
      rcases List.mem_cons.mp hw with hw | hw
      · rw [hw]; exact hle
      · exact hall w hw

-- ==========================================
-- Claim theorems
-- ==========================================

/-- C4: geofence authorization returns the first zone in list order whose
distance from the coordinate is at most that zone's own radius
(first-match, not nearest-match: every earlier zone fails its own radius
check, even when several zones cover the point); a covered point is always
authorized; and when no zone covers the point the result is
not-authorized together with the globally nearest zone and its
distance. -/
theorem geofence_first_match (dist : ℚ → ℚ → ℚ → ℚ → ℤ) (lat lng : ℚ)
    (zones : List Zone) :
    (∀ z d, isLocationAuthorized dist lat lng zones = .authorized z d →
      d = dist lat lng z.lat z.lng ∧ dist lat lng z.lat z.lng ≤ z.radius ∧
      ∃ (i : ℕ) (hi : i < zones.length), zones.get ⟨i, hi⟩ = z ∧
        ∀ j (hj : j < zones.length), j < i →
          ¬ dist lat lng (zones.get ⟨j, hj⟩).lat (zones.get ⟨j, hj⟩).lng
            ≤ (zones.get ⟨j, hj⟩).radius)
    ∧ ((∃ z ∈ zones, dist lat lng z.lat z.lng ≤ z.radius) →
        ∃ z d, isLocationAuthorized dist lat lng zones = .authorized z d)
    ∧ ((∀ z ∈ zones, ¬ dist lat lng z.lat z.lng ≤ z.radius) → zones ≠ [] →
        ∃ z d, isLocationAuthorized dist lat lng zones
            = .notAuthorized (some (z, d)) ∧
          z ∈ zones ∧ d = dist lat lng z.lat z.lng ∧
          ∀ w ∈ zones, d ≤ dist lat lng w.lat w.lng) := by
  refine ⟨?_, ?_, ?_⟩
  · intro z d h
    rcases hf : zones.find? (fun zz => dist lat lng zz.lat zz.lng ≤ zz.radius)
      with _ | z''
    · simp [isLocationAuthorized, hf] at h
    · simp only [isLocationAuthorized, hf, AuthResult.authorized.injEq] at h
      obtain ⟨hz, hd⟩ := h
      rw [hz] at hf hd
      obtain ⟨i, hi, hget, hp, hfirst⟩ := find?_first _ zones z hf
      refine ⟨hd.symm, of_decide_eq_true hp, i, hi, hget, ?_⟩
      intro j hj hji
      exact of_decide_eq_false (hfirst j hj hji)
  · rintro ⟨z, hz, hcov⟩
    have hsome : (zones.find?
        (fun zz => dist lat lng zz.lat zz.lng ≤ zz.radius)).isSome := by
      exact List.find?_isSome.mpr ⟨z, hz, decide_eq_true hcov⟩
    rcases hf : zones.find? (fun zz => dist lat lng zz.lat zz.lng ≤ zz.radius)
      with _ | z''
    · rw [hf] at hsome; simp at hsome
    · exact ⟨z'', dist lat lng z''.lat z''.lng, by simp [isLocationAuthorized, hf]⟩
  · intro hall hne
    have hf : zones.find? (fun zz => dist lat lng zz.lat zz.lng ≤ zz.radius)
        = none := by
      refine List.find?_eq_none.mpr ?_
      intro x hx
      simpa using hall x hx
    obtain ⟨z, d, hcz, hmem, hd, hmin⟩ := closestZone_spec dist lat lng zones hne
    exact ⟨z, d, by simp [isLocationAuthorized, hf, hcz], hmem, hd, hmin⟩

/-- Witness for C4: with both test zones 200 m away (radii 50 and 80),
the point is not authorized and the first zone is reported as nearest at
200 m. -/
theorem geofence_first_match_witness :
    ∃ z d, isLocationAuthorized dist200 0 0 [zoneA, zoneB]
        = .notAuthorized (some (z, d)) ∧
      z ∈ [zoneA, zoneB] ∧ d = dist200 0 0 z.lat z.lng ∧
      ∀ w ∈ [zoneA, zoneB], d ≤ dist200 0 0 w.lat w.lng :=
  (geofence_first_match dist200 0 0 [zoneA, zoneB]).2.2 (by decide) (by decide)


/-- C3: the block manager (a) blocks a user the moment the accumulated
HIGH-severity warning count reaches 5, setting `blockUntil` 30 minutes in
the future and reporting BLOCKED for the current call; (b) while
`blockUntil` is in the future every evaluation reports BLOCKED with the
remaining minutes and leaves the record untouched (nothing further is
evaluated); (c) the first evaluation after `blockUntil` has passed (one
carrying no HIGH flag, as the block-status consultation that opens every
advanced validation does) clears the block and resets the warning counter
to exactly 0. -/
theorem block_manager_policy (log? : Option SuspiciousLog) (now : ℤ)
    (flags : List SuspiciousFlag) :
    (¬((log?.getD initLog).isBlocked = true ∧
        (log?.getD initLog).blockUntil.getD 0 > now) →
      0 < (flags.filter (fun f => f.severity == .HIGH)).length →
      5 ≤ (if (log?.getD initLog).isBlocked then 0
           else (log?.getD initLog).warnings)
          + (flags.filter (fun f => f.severity == .HIGH)).length →
      (manageSuspiciousUser log? now flags).2.isBlocked = true ∧
      (manageSuspiciousUser log? now flags).2.message
        = some (.blockedWarnings
            ((if (log?.getD initLog).isBlocked then 0
              else (log?.getD initLog).warnings)
             + (flags.filter (fun f => f.severity == .HIGH)).length)) ∧
      (manageSuspiciousUser log? now flags).1.isBlocked = true ∧
      (manageSuspiciousUser log? now flags).1.blockUntil
        = some (now + 30 * 60 * 1000) ∧
      (manageSuspiciousUser log? now flags).1.warnings
        = (if (log?.getD initLog).isBlocked then 0
           else (log?.getD initLog).warnings)
          + (flags.filter (fun f => f.severity == .HIGH)).length)
    ∧ ((log?.getD initLog).isBlocked = true →
        (log?.getD initLog).blockUntil.getD 0 > now →
      (manageSuspiciousUser log? now flags).1 = log?.getD initLog ∧
      (manageSuspiciousUser log? now flags).2
        = ⟨true, 0, some (.blockedRemaining
            ⌈(((log?.getD initLog).blockUntil.getD 0 - now : ℤ) : ℚ) / 60000⌉)⟩)
    ∧ ((log?.getD initLog).isBlocked = true →
        (log?.getD initLog).blockUntil.getD 0 ≤ now →
      (flags.filter (fun f => f.severity == .HIGH)).length = 0 →
      (manageSuspiciousUser log? now flags).1.isBlocked = false ∧
      (manageSuspiciousUser log? now flags).1.warnings = 0 ∧
      (manageSuspiciousUser log? now flags).1.blockUntil = none ∧
      (manageSuspiciousUser log? now flags).2 = ⟨false, 0, none⟩) := by
  refine ⟨?_, ?_, ?_⟩
  · intro hnot hpos h5
    by_cases hb : (log?.getD initLog).isBlocked
    · have hle : ¬((log?.getD initLog).blockUntil.getD 0 > now) :=
        fun hgt => hnot ⟨hb, hgt⟩
      have h5' : 5 ≤ (flags.filter (fun f => f.severity == .HIGH)).length := by
        simpa [hb] using h5
      simp only [manageSuspiciousUser, hb, if_true, true_and, if_neg hle,
        if_pos hpos, Nat.zero_add, if_pos h5']
    · have h5' : 5 ≤ (log?.getD initLog).warnings
          + (flags.filter (fun f => f.severity == .HIGH)).length := by
        simpa [hb] using h5
      simp only [manageSuspiciousUser, hb, Bool.false_eq_true, false_and,
        not_false_eq_true, if_neg, if_false, if_pos hpos]
      rw [if_pos h5']
      simp
  · intro hb hgt
    simp [manageSuspiciousUser, hb, hgt]
  · intro hb hle hflags
    have hnil : flags.filter (fun f => f.severity == .HIGH) = [] :=
      List.length_eq_zero.mp hflags
    have hnotgt : ¬((log?.getD initLog).blockUntil.getD 0 > now) := not_lt.mpr hle
    simp [manageSuspiciousUser, hb, hnotgt, hnil]

/-- Witness for C3: a user blocked until 100 000 ms, evaluated at
40 000 ms, is reported BLOCKED with 1 minute remaining and an unchanged
record. -/
theorem block_manager_policy_witness :
    (manageSuspiciousUser (some logBlocked) 40000 []).1 = logBlocked ∧
    (manageSuspiciousUser (some logBlocked) 40000 []).2
      = ⟨true, 0, some (.blockedRemaining 1)⟩ := by
  have h := (block_manager_policy (some logBlocked) 40000 []).2.1
    (by decide) (by decide)
  refine ⟨h.1, ?_⟩
  rw [h.2]
  norm_num [logBlocked]

/-- C5: for every evaluation of the advanced validation, unless the call
reports BLOCKED (an active or newly imposed block), the fraud risk level
equals the spec's function of the produced flag set: HIGH with at least
2 HIGH-severity flags, otherwise MEDIUM with at least 1 HIGH-severity or
at least 2 MEDIUM-severity flags, otherwise LOW. -/
theorem fraud_risk_from_flags (dist : ℚ → ℚ → ℚ → ℚ → ℤ)
    (pf : ℚ → ℚ → List SuspiciousFlag) (zones : List Zone)
    (ld : LocationData) (hist : List HistoryEntry)
    (log? : Option SuspiciousLog) (now : ℤ) :
    (validateGPSLocationAdvanced dist pf zones ld hist log? now).1.fraudRisk
      = .BLOCKED ∨
    (validateGPSLocationAdvanced dist pf zones ld hist log? now).1.fraudRisk
      = specRiskLevel
          (validateGPSLocationAdvanced dist pf zones ld hist log? now).1.suspiciousFlags := by
  have hrs : ∀ fl, riskOfFlags fl = specRiskLevel fl := by
    intro fl
    simp [riskOfFlags, specRiskLevel, List.countP_eq_length_filter]
  simp only [validateGPSLocationAdvanced]
  split
  · exact Or.inl rfl
  · split
    · right; simp [specRiskLevel]
    · split
      · split
        · exact Or.inl rfl
        · right
          simp only [advFinish]
          exact (hrs _)
      · right
        simp only [advFinish]
        exact (hrs _)

/-- C10: a reading whose latitude or longitude equals exactly 0 is
rejected with the missing-coordinates reason by both the basic and the
advanced validation, even though the coordinate fields are present
(JavaScript falsiness treats 0 as absent); the advanced validation also
leaves the location history untouched. -/
theorem zero_coordinate_rejected (dist : ℚ → ℚ → ℚ → ℚ → ℤ)
    (pf : ℚ → ℚ → List SuspiciousFlag) (zones : List Zone)
    (ld : LocationData) (hist : List HistoryEntry)
    (log? : Option SuspiciousLog) (now : ℤ)
    (h : ld.latitude = some 0 ∨ ld.longitude = some 0) :
    validateGPSLocation dist zones ld now
      = ⟨false, [.missingCoords], none, none, [], none⟩ ∧
    ((manageSuspiciousUser log? now []).2.isBlocked = false →
      (validateGPSLocationAdvanced dist pf zones ld hist log? now).1
        = ⟨false, [.missingCoords], [], [], .LOW, none, none⟩ ∧
      (validateGPSLocationAdvanced dist pf zones ld hist log? now).2.1 = hist) := by
  constructor
  · rcases h with h | h <;> simp [validateGPSLocation, qTruthy, h]
  · intro hnb
    rcases h with h | h <;>
      constructor <;> simp [validateGPSLocationAdvanced, qTruthy, h, hnb]

/-- Witness for C10: the concrete reading with latitude 0 is rejected as
missing coordinates by both validators. -/
theorem zero_coordinate_rejected_witness :
    validateGPSLocation distZeroFar AUTHORIZED_LOCATIONS ldZeroLat 0
      = ⟨false, [.missingCoords], none, none, [], none⟩ ∧
    (validateGPSLocationAdvanced distZeroFar pfNone AUTHORIZED_LOCATIONS
        ldZeroLat [] none 0).1
      = ⟨false, [.missingCoords], [], [], .LOW, none, none⟩ := by
  have h := zero_coordinate_rejected distZeroFar pfNone AUTHORIZED_LOCATIONS
    ldZeroLat [] none 0 (Or.inl rfl)
  exact ⟨h.1, (h.2 (by decide)).1⟩

/-- C6 counterexample: a reading at the first zone's exact center with an
absent accuracy field is **accepted** by the basic validation (it reaches
the geofence check and returns valid with the authorized-zone message),
even though the accuracy helper itself would reject an absent accuracy —
the caller's `accuracy !== undefined` guard skips the gate entirely.  The
distance function is instantiated consistently with the haversine
formula, which gives distance 0 between identical coordinates. -/
theorem missing_accuracy_accepted :
    (validateGPSLocation distZeroFar AUTHORIZED_LOCATIONS ldCenterNoAcc 0).isValid
      = true ∧
    (validateGPSLocation distZeroFar AUTHORIZED_LOCATIONS ldCenterNoAcc 0).reasons
      = [Msg.authorizedMsg "Valle de los Ciervos" 0] ∧
    (isLocationAccuracyValid none).isValid = false := by
  refine ⟨?_, ?_, by simp [isLocationAccuracyValid, qTruthy]⟩ <;>
    norm_num [validateGPSLocation, ldCenterNoAcc, qTruthy, isLocationAuthorized,
      AUTHORIZED_LOCATIONS, List.find?, distZeroFar]

/-- C6 (amended): a reading whose accuracy field is absent skips the
accuracy gate entirely — given present coordinates and a fresh or absent
timestamp it proceeds to the geofence check and is valid exactly when a
zone authorizes it, and no insufficient-accuracy reason is ever
produced.  (The insufficient-accuracy rejection fires only when accuracy
is present and zero or above 50 m.) -/
theorem missing_accuracy_skips_gate (dist : ℚ → ℚ → ℚ → ℚ → ℤ)
    (zones : List Zone) (ld : LocationData) (now : ℤ)
    (hacc : ld.accuracy = none)
    (hlat : qTruthy ld.latitude = true) (hlng : qTruthy ld.longitude = true)
    (hfresh : zTruthy ld.timestamp = false ∨
      ¬(((now - (ld.timestamp.getD 0) * 1000 : ℤ) : ℚ) / 60000 > 2)) :
    ((validateGPSLocation dist zones ld now).isValid = true ↔
      ∃ z d, isLocationAuthorized dist (ld.latitude.getD 0) (ld.longitude.getD 0)
          zones = .authorized z d) ∧
    ∀ m ∈ (validateGPSLocation dist zones ld now).reasons,
      ∀ acc, m ≠ .insufficientAccuracy acc := by
  have hmain : ∀ tsW, (match isLocationAuthorized dist (ld.latitude.getD 0)
      (ld.longitude.getD 0) zones with
      | AuthResult.authorized z d =>
        (⟨true, [Msg.authorizedMsg z.name d], some z, some d, tsW, none⟩ : BasicResult)
      | AuthResult.notAuthorized closest =>
        ⟨false, [Msg.notAuthorizedMsg ((closest.map Prod.snd).getD 0)
            (closest.map Prod.fst)], none, closest.map Prod.snd, tsW,
          closest.map Prod.fst⟩).isValid = true ↔
      ∃ z d, isLocationAuthorized dist (ld.latitude.getD 0) (ld.longitude.getD 0)
        zones = .authorized z d := by
    intro tsW
    rcases hauth : isLocationAuthorized dist (ld.latitude.getD 0)
      (ld.longitude.getD 0) zones with ⟨z, d⟩ | closest <;> simp [hauth]
  rcases hts : ld.timestamp with _ | ts
  · constructor
    · have := hmain []
      simp only [validateGPSLocation, hacc, hts, hlat, hlng] at this ⊢
      simpa using this
    · intro m hm acc
      simp only [validateGPSLocation, hacc, hts, hlat, hlng] at hm
      rcases hauth : isLocationAuthorized dist (ld.latitude.getD 0)
        (ld.longitude.getD 0) zones with ⟨z, d⟩ | closest <;>
        simp [hauth] at hm <;> simp [hm]
  · by_cases hts0 : ts = 0
    · subst hts0
      constructor
      · have := hmain []
        simp only [validateGPSLocation, hacc, hts, hlat, hlng] at this ⊢
        simpa using this
      · intro m hm acc
        simp only [validateGPSLocation, hacc, hts, hlat, hlng] at hm
        rcases hauth : isLocationAuthorized dist (ld.latitude.getD 0)
          (ld.longitude.getD 0) zones with ⟨z, d⟩ | closest <;>
          simp [hauth] at hm <;> simp [hm]
    · have hfr : ¬(((now - ts * 1000 : ℤ) : ℚ) / 60000 > 2) := by
        rcases hfresh with hf | hf
        · simp [zTruthy, hts, hts0] at hf
        · simpa [hts] using hf
      have hcheck : isLocationTimestampValid now ts
          = ⟨true, .recentLocation (jsRound (((now - ts * 1000 : ℤ) : ℚ) / 60000))⟩ := by
        simp only [isLocationTimestampValid]
        rw [if_neg hfr]
      constructor
      · have := hmain [Msg.recentLocation (jsRound (((now - ts * 1000 : ℤ) : ℚ) / 60000))]
        simp only [validateGPSLocation, hacc, hts, hlat, hlng, hts0, hcheck] at this ⊢
        simpa [hts0] using this
      · intro m hm acc
        simp only [validateGPSLocation, hacc, hts, hlat, hlng, hts0, hcheck] at hm
        rcases hauth : isLocationAuthorized dist (ld.latitude.getD 0)
          (ld.longitude.getD 0) zones with ⟨z, d⟩ | closest <;>
          simp [hauth, hts0] at hm <;> simp [hm]

/-- Witness for the amended C6: the reading at the first zone's center
with absent accuracy and absent timestamp. -/
theorem missing_accuracy_skips_gate_witness :
    ((validateGPSLocation distZeroFar AUTHORIZED_LOCATIONS ldCenterNoAcc 0).isValid
        = true ↔
      ∃ z d, isLocationAuthorized distZeroFar (ldCenterNoAcc.latitude.getD 0)
          (ldCenterNoAcc.longitude.getD 0) AUTHORIZED_LOCATIONS
          = .authorized z d) ∧
    ∀ m ∈ (validateGPSLocation distZeroFar AUTHORIZED_LOCATIONS ldCenterNoAcc 0).reasons,
      ∀ acc, m ≠ .insufficientAccuracy acc :=
  missing_accuracy_skips_gate distZeroFar AUTHORIZED_LOCATIONS ldCenterNoAcc 0
    rfl (by norm_num [qTruthy, ldCenterNoAcc]) (by norm_num [qTruthy, ldCenterNoAcc])
    (Or.inl rfl)

/-- C7 counterexample: for a blocked user, a reading with missing
coordinates is answered BLOCKED (with the remaining minutes), not with
the missing-coordinates reason — the block status is consulted **before**
the coordinate check, refuting the claim that missing coordinates are
rejected before any other check. -/
theorem blocked_before_missing_coords :
    (validateGPSLocationAdvanced distZeroFar pfNone AUTHORIZED_LOCATIONS
        ldNoCoords [] (some logBlocked) 40000).1.fraudRisk = .BLOCKED ∧
    (validateGPSLocationAdvanced distZeroFar pfNone AUTHORIZED_LOCATIONS
        ldNoCoords [] (some logBlocked) 40000).1.reasons
      = [Msg.blockedRemaining 1] ∧
    Msg.missingCoords ∉ (validateGPSLocationAdvanced distZeroFar pfNone
        AUTHORIZED_LOCATIONS ldNoCoords [] (some logBlocked) 40000).1.reasons := by
  have h1 : manageSuspiciousUser (some logBlocked) 40000 []
      = (logBlocked, ⟨true, 0, some (.blockedRemaining 1)⟩) := by
    norm_num [manageSuspiciousUser, logBlocked]
  refine ⟨?_, ?_, ?_⟩ <;> simp [validateGPSLocationAdvanced, h1]

/-- C7 (amended): a reading lacking latitude or longitude is rejected by
the advanced validation with the missing-coordinates reason before any
fraud analyzer executes (no flags are produced and the history is
untouched) — but **after** the user's block status is consulted: the
rejection presumes that consultation reported no active block, and the
block-status management's update of the fraud record persists. -/
theorem missing_coords_after_block_check (dist : ℚ → ℚ → ℚ → ℚ → ℤ)
    (pf : ℚ → ℚ → List SuspiciousFlag) (zones : List Zone)
    (ld : LocationData) (hist : List HistoryEntry)
    (log? : Option SuspiciousLog) (now : ℤ)
    (hnb : (manageSuspiciousUser log? now []).2.isBlocked = false)
    (hmiss : ¬(qTruthy ld.latitude = true ∧ qTruthy ld.longitude = true)) :
    (validateGPSLocationAdvanced dist pf zones ld hist log? now).1
      = ⟨false, [.missingCoords], [], [], .LOW, none, none⟩ ∧
    (validateGPSLocationAdvanced dist pf zones ld hist log? now).2.1 = hist ∧
    (validateGPSLocationAdvanced dist pf zones ld hist log? now).2.2
      = (manageSuspiciousUser log? now []).1 := by
  refine ⟨?_, ?_, ?_⟩ <;> simp [validateGPSLocationAdvanced, hnb, hmiss]

/-- Witness for the amended C7: an unblocked user's reading with no
coordinates at all is rejected as missing coordinates with no analyzer
side effects. -/
theorem missing_coords_after_block_check_witness :
    (validateGPSLocationAdvanced distZeroFar pfNone AUTHORIZED_LOCATIONS
        ldNoCoords [] none 0).1
      = ⟨false, [.missingCoords], [], [], .LOW, none, none⟩ ∧
    (validateGPSLocationAdvanced distZeroFar pfNone AUTHORIZED_LOCATIONS
        ldNoCoords [] none 0).2.1 = [] :=
  ⟨(missing_coords_after_block_check distZeroFar pfNone AUTHORIZED_LOCATIONS
      ldNoCoords [] none 0 (by decide) (by decide)).1,
   (missing_coords_after_block_check distZeroFar pfNone AUTHORIZED_LOCATIONS
      ldNoCoords [] none 0 (by decide) (by decide)).2.1⟩

/-- C2 counterexample: with a VALID `entrada` followed by a more recent
INVALID `salida`, the most recent **validated** record is the entrada —
the claim then requires status IN — yet the derived state is OUT, because
the code reads the most recent record regardless of status and only uses
it when that record itself happens to be VALID. -/
theorem last_validated_entrada_but_out :
    lastValidatedRecord [recEntradaValid, recSalidaInvalid] = some recEntradaValid ∧
    recEntradaValid.actionType = "entrada" ∧
    recEntradaValid.validationStatus = "VALID" ∧
    (getEmployeeCurrentStateOf sessionFresh [recEntradaValid, recSalidaInvalid]
        (fun _ => true) 3000 10).1.currentStatus = "OUT" := by
  refine ⟨by decide, rfl, rfl, by decide⟩

/-- C2 (amended): the derived `currentStatus` is IN if and only if the
single most recent record — regardless of validation status — exists, has
validation status VALID, and has action type `entrada`; it is OUT
otherwise, in particular whenever the most recent record is INVALID, even
if an older VALID entrada exists. -/
theorem current_status_from_last_record (session : Session)
    (records : List AttendanceRecord) (isToday : ℤ → Bool) (now : ℤ)
    (currentHour : ℕ) :
    (getEmployeeCurrentStateOf session records isToday now
        currentHour).1.currentStatus = "IN"
      ↔ ∃ r, getLastAttendanceRecord records = some r ∧
          r.validationStatus = "VALID" ∧ r.actionType = "entrada" := by
  simp only [getEmployeeCurrentStateOf, computeEmployeeState, getLastAttendanceRecord]
  rcases hl : records.getLast? with _ | r
  · simp
  · by_cases hv : r.validationStatus = "VALID"
    · by_cases ha : r.actionType = "entrada"
      · simp [hv, ha]
      · simp [hv, ha]
    · simp [hv]

/-- C8: a request that differs from the user's pending action is denied
with the pending-conflict reason (in both directions), while a request
equal to the pending action is not treated as a conflict: it is
re-evaluated under exactly the ordinary legality rules, identically to a
state with no pending action at all. -/
theorem pending_conflict_policy (es : EmployeeState) (a : String) :
    (es.pendingAction = some "salida" →
      validateAttendanceAction es "entrada" = ⟨false, .conflictPending "salida"⟩) ∧
    (es.pendingAction = some "entrada" →
      validateAttendanceAction es "salida" = ⟨false, .conflictPending "entrada"⟩) ∧
    (es.pendingAction = some a →
      validateAttendanceAction es a
        = validateAttendanceAction { es with pendingAction := none } a) := by
  refine ⟨?_, ?_, ?_⟩ <;> intro h <;> simp [validateAttendanceAction, h]

/-- Witness for C8: requesting `entrada` while `salida` is pending is
denied with the conflict reason. -/
theorem pending_conflict_policy_witness :
    validateAttendanceAction statePendingSalida "entrada"
      = ⟨false, .conflictPending "salida"⟩ :=
  (pending_conflict_policy statePendingSalida "entrada").1 rfl

/-- The history analyzer always appends the current reading: the last
entry of the updated history is the pushed entry. -/
theorem analyzeLocationHistory_getLast (dist : ℚ → ℚ → ℚ → ℚ → ℤ)
    (hist : List HistoryEntry) (lat lng : ℚ) (ts : Option ℤ) (now : ℤ) :
    (analyzeLocationHistory dist hist lat lng ts now).1.getLast?
      = some ⟨lat, lng, if zTruthy ts then ts.getD 0 else now⟩ := by
  simp only [analyzeLocationHistory]
  by_cases hlen : (hist ++ [(⟨lat, lng, if zTruthy ts then ts.getD 0 else now⟩ : HistoryEntry)]).length > 10
  · have hne : hist ≠ [] := by
      intro h
      subst h
      simp at hlen
  
    rw [if_pos hlen, List.tail_append_of_ne_nil hne, List.getLast?_concat]
  · rw [if_neg hlen, List.getLast?_concat]

/-- The basic validation of a reading with present coordinates and a
stale truthy timestamp returns exactly the staleness rejection. -/
theorem validateGPSLocation_stale (dist : ℚ → ℚ → ℚ → ℚ → ℤ)
    (zones : List Zone) (ld : LocationData) (now ts : ℤ)
    (hlat : qTruthy ld.latitude = true) (hlng : qTruthy ld.longitude = true)
    (hts : ld.timestamp = some ts) (hts0 : ts ≠ 0)
    (hstale : ((now - ts * 1000 : ℤ) : ℚ) / 60000 > 2) :
    validateGPSLocation dist zones ld now
      = ⟨false, [.tooOld (jsRound (((now - ts * 1000 : ℤ) : ℚ) / 60000))],
         none, none, [], none⟩ := by
  have hcheck : isLocationTimestampValid now ts
      = ⟨false, .tooOld (jsRound (((now - ts * 1000 : ℤ) : ℚ) / 60000))⟩ := by
    simp only [isLocationTimestampValid]
    rw [if_pos hstale]
  simp only [validateGPSLocation, hlat, hlng, hts, hts0, hcheck]
  simp [hts0]

/-- C1 (amended): a reading more than 2 minutes old is rejected with the
staleness reason (unless the evaluation's own flag set triggers a block
first), but only **after** fraud analysis has run: the suspicious flags
of all three analyzers are produced and the reading is appended to the
user's location history. -/
theorem stale_rejected_after_analysis (dist : ℚ → ℚ → ℚ → ℚ → ℤ)
    (pf : ℚ → ℚ → List SuspiciousFlag) (zones : List Zone)
    (ld : LocationData) (hist : List HistoryEntry)
    (log? : Option SuspiciousLog) (now ts : ℤ)
    (hnb : (manageSuspiciousUser log? now []).2.isBlocked = false)
    (hlat : qTruthy ld.latitude = true) (hlng : qTruthy ld.longitude = true)
    (hts : ld.timestamp = some ts) (hts0 : ts ≠ 0)
    (hstale : ((now - ts * 1000 : ℤ) : ℚ) / 60000 > 2)
    (hnoblock : riskOfFlags (pf (ld.latitude.getD 0) (ld.longitude.getD 0)
        ++ validateGPSMetadata ld.accuracy ld.timestamp
        ++ (analyzeLocationHistory dist hist (ld.latitude.getD 0)
             (ld.longitude.getD 0) ld.timestamp now).2) = .HIGH →
      (manageSuspiciousUser (some (manageSuspiciousUser log? now []).1) now
        (pf (ld.latitude.getD 0) (ld.longitude.getD 0)
         ++ validateGPSMetadata ld.accuracy ld.timestamp
         ++ (analyzeLocationHistory dist hist (ld.latitude.getD 0)
              (ld.longitude.getD 0) ld.timestamp now).2)).2.isBlocked = false) :
    (validateGPSLocationAdvanced dist pf zones ld hist log? now).1.isValid
      = false ∧
    Msg.tooOld (jsRound (((now - ts * 1000 : ℤ) : ℚ) / 60000))
      ∈ (validateGPSLocationAdvanced dist pf zones ld hist log? now).1.reasons ∧
    (validateGPSLocationAdvanced dist pf zones ld hist log? now).1.suspiciousFlags
      = pf (ld.latitude.getD 0) (ld.longitude.getD 0)
        ++ validateGPSMetadata ld.accuracy ld.timestamp
        ++ (analyzeLocationHistory dist hist (ld.latitude.getD 0)
             (ld.longitude.getD 0) ld.timestamp now).2 ∧
    (validateGPSLocationAdvanced dist pf zones ld hist log? now).2.1
      = (analyzeLocationHistory dist hist (ld.latitude.getD 0)
          (ld.longitude.getD 0) ld.timestamp now).1 ∧
    (validateGPSLocationAdvanced dist pf zones ld hist log? now).2.1.getLast?
      = some ⟨ld.latitude.getD 0, ld.longitude.getD 0,
              if zTruthy ld.timestamp then ld.timestamp.getD 0 else now⟩ := by
  have hbasic := validateGPSLocation_stale dist zones ld now ts hlat hlng hts hts0 hstale
  by_cases hrisk : riskOfFlags (pf (ld.latitude.getD 0) (ld.longitude.getD 0)
      ++ validateGPSMetadata ld.accuracy ld.timestamp
      ++ (analyzeLocationHistory dist hist (ld.latitude.getD 0)
           (ld.longitude.getD 0) ld.timestamp now).2) = .HIGH
  · simp only [validateGPSLocationAdvanced, hnb, hlat, hlng, hrisk,
      hnoblock hrisk, Bool.false_eq_true, if_false, and_self, decide_True,
      Bool.not_true, advFinish, hbasic]
    refine ⟨by simp, by simp, by trivial, by trivial, ?_⟩
    exact analyzeLocationHistory_getLast dist hist (ld.latitude.getD 0)
      (ld.longitude.getD 0) ld.timestamp now
  · simp only [validateGPSLocationAdvanced, hnb, hlat, hlng, hrisk,
      Bool.false_eq_true, if_false, and_self, decide_True, Bool.not_true,
      advFinish, hbasic]
    refine ⟨by simp, by simp, by trivial, by trivial, ?_⟩
    exact analyzeLocationHistory_getLast dist hist (ld.latitude.getD 0)
      (ld.longitude.getD 0) ld.timestamp now

/-- C1 counterexample: a reading exactly 3 minutes old is rejected with
the staleness reason, yet the user's location history **is** modified by
the evaluation (it gains the reading), contradicting the claim that a
stale reading undergoes no fraud analysis and leaves the history
untouched. -/
theorem stale_reading_still_analyzed :
    (validateGPSLocationAdvanced distZeroFar pfNone AUTHORIZED_LOCATIONS
        ldStale [] none 60000000).1.isValid = false ∧
    (validateGPSLocationAdvanced distZeroFar pfNone AUTHORIZED_LOCATIONS
        ldStale [] none 60000000).1.reasons = [Msg.tooOld 3] ∧
    (validateGPSLocationAdvanced distZeroFar pfNone AUTHORIZED_LOCATIONS
        ldStale [] none 60000000).2.1 = [⟨1, 1, 59820⟩] := by
  have h1 : manageSuspiciousUser none 60000000 []
      = (initLog, ⟨false, 0, none⟩) := by decide
  have hmeta : validateGPSMetadata (some 10) (some 59820) = [] := by
    norm_num [validateGPSMetadata, qTruthy, zTruthy]
  have hhist : analyzeLocationHistory distZeroFar [] 1 1 (some 59820) 60000000
      = ([⟨1, 1, 59820⟩], []) := by
    norm_num [analyzeLocationHistory, zTruthy]
  have hb := validateGPSLocation_stale distZeroFar AUTHORIZED_LOCATIONS ldStale
    60000000 59820 (by norm_num [qTruthy, ldStale]) (by norm_num [qTruthy, ldStale])
    rfl (by norm_num) (by norm_num)
  have hjr : jsRound (((60000000 - 59820 * 1000 : ℤ) : ℚ) / 60000) = 3 := by
    norm_num [jsRound]
  rw [hjr] at hb
  simp only [ldStale] at hb
  refine ⟨?_, ?_, ?_⟩ <;>
    simp [validateGPSLocationAdvanced, h1, hmeta, hhist, hb, pfNone, ldStale,
      advFinish, riskOfFlags, qTruthy]

/-- Witness for the amended C1: the 3-minute-old reading is rejected with
the staleness reason and its entry lands at the end of the history. -/
theorem stale_rejected_after_analysis_witness :
    (validateGPSLocationAdvanced distZeroFar pfNone AUTHORIZED_LOCATIONS
        ldStale [] none 60000000).1.isValid = false ∧
    Msg.tooOld 3 ∈ (validateGPSLocationAdvanced distZeroFar pfNone
        AUTHORIZED_LOCATIONS ldStale [] none 60000000).1.reasons ∧
    (validateGPSLocationAdvanced distZeroFar pfNone AUTHORIZED_LOCATIONS
        ldStale [] none 60000000).2.1.getLast? = some ⟨1, 1, 59820⟩ := by
  have h := stale_rejected_after_analysis distZeroFar pfNone AUTHORIZED_LOCATIONS
    ldStale [] none 60000000 59820 (by decide)
    (by norm_num [qTruthy, ldStale]) (by norm_num [qTruthy, ldStale]) rfl
    (by norm_num) (by norm_num)
    (by intro hcontra
        norm_num [pfNone, ldStale, validateGPSMetadata, qTruthy, zTruthy,
          analyzeLocationHistory, riskOfFlags] at hcontra
        exact Risk.noConfusion hcontra)
  have hjr : jsRound (((60000000 - 59820 * 1000 : ℤ) : ℚ) / 60000) = 3 := by
    norm_num [jsRound]
  obtain ⟨ha, hmem, _, _, hlast⟩ := h
  rw [hjr] at hmem
  exact ⟨ha, hmem, hlast⟩

/-- Deriving the employee state from a session with no pending action
leaves the session untouched (the expiry-clear path needs a pending
action to clear). -/
theorem computeEmployeeState_session_of_none (sess : Session)
    (lr : Option AttendanceRecord) (tr : List AttendanceRecord)
    (now : ℤ) (h : ℕ) (hp : sess.pendingAction = none) :
    (computeEmployeeState sess lr tr now h).2 = sess := by
  simp [computeEmployeeState, hp]

/-- Session creation and activity bumps never introduce a pending action:
a clean session map stays clean, and the returned session is clean. -/
theorem getOrCreate_clean (user : String) (now : ℤ)
    (m : String → Option Session) (h : SessionsClean m) :
    (getOrCreateEmployeeSession user now m).1.pendingAction = none ∧
    SessionsClean (getOrCreateEmployeeSession user now m).2 := by
  rcases hm : m user with _ | s
  · constructor
    · simp [getOrCreateEmployeeSession, hm]
    · intro u sess hu
      simp only [getOrCreateEmployeeSession, hm] at hu
      by_cases hu2 : u = user
      · simp [hu2] at hu
        simp [← hu]
      · simp [hu2] at hu
        exact h u sess hu
  · have hs : s.pendingAction = none := h user s hm
    constructor
    · simp [getOrCreateEmployeeSession, hm, hs]
    · intro u sess hu
      simp only [getOrCreateEmployeeSession, hm] at hu
      by_cases hu2 : u = user
      · simp [hu2] at hu
        simp [← hu, hs]
      · simp [hu2] at hu
        exact h u sess hu

/-- The system-level state recomputation preserves cleanliness of the
session map. -/
theorem getStateS_clean (user : String) (now : ℤ) (currentHour : ℕ)
    (isToday : ℤ → Bool) (s : SysState) (h : SessionsClean s.sessions) :
    SessionsClean (getEmployeeCurrentStateS user now currentHour isToday s).2.sessions := by
  obtain ⟨hg1, hg2⟩ := getOrCreate_clean user now s.sessions h
  intro u sess hu
  simp only [getEmployeeCurrentStateS, getEmployeeCurrentStateOf] at hu
  rw [computeEmployeeState_session_of_none _ _ _ _ _ hg1] at hu
  by_cases hu2 : u = user
  · simp [hu2] at hu
    simp [← hu, hg1]
  · simp [hu2] at hu
    exact hg2 u sess hu

/-- C9: the message handler stores pending actions only in its own
`pendingAttendanceRequests` map — from any state whose sessions carry no
pending action, every handled message (text command or location) leaves
every session's `pendingAction` field `none` (`setPendingAction` is never
invoked).  Consequently the state machine's pending-conflict denial can
never fire (no reason is ever `conflictPending`), and the pending-action
conjunct inside `canEnter`/`canExit` is vacuous: they reduce to the
status/daily-cap/work-hours conditions alone. -/
theorem handler_never_sets_session_pending (dist : ℚ → ℚ → ℚ → ℚ → ℤ)
    (pf : ℚ → ℚ → List SuspiciousFlag) (zones : List Zone)
    (user : String) (msg : Incoming) (now : ℤ) (currentHour : ℕ)
    (isToday : ℤ → Bool) (s : SysState)
    (hclean : SessionsClean s.sessions) :
    SessionsClean (handleMessage dist pf zones user msg now currentHour
      isToday s).sessions ∧
    (∀ (es : EmployeeState) (a p : String), es.pendingAction = none →
      (validateAttendanceAction es a).reason ≠ .conflictPending p) ∧
    (∀ (sess : Session) (lr : Option AttendanceRecord)
        (tr : List AttendanceRecord) (now2 : ℤ) (h2 : ℕ),
      sess.pendingAction = none →
      (computeEmployeeState sess lr tr now2 h2).1.pendingAction = none ∧
      (computeEmployeeState sess lr tr now2 h2).1.canEnter
        = (((computeEmployeeState sess lr tr now2 h2).1.currentStatus == "OUT")
           && decide ((computeEmployeeState sess lr tr now2 h2).1.todayEntries < 3)
           && (computeEmployeeState sess lr tr now2 h2).1.isWorkingHours) ∧
      (computeEmployeeState sess lr tr now2 h2).1.canExit
        = ((computeEmployeeState sess lr tr now2 h2).1.currentStatus == "IN")) := by
  refine ⟨?_, ?_, ?_⟩
  · cases msg with
    | location loc =>
      rcases hpr : s.pendingReqs user with _ | pa
      · simpa [handleMessage, hpr] using hclean
      · simpa [handleMessage, hpr] using hclean
    | text body =>
      simp only [handleMessage]
      split
      · split
        · simpa [validateAttendanceActionS] using
            getStateS_clean user now currentHour isToday s hclean
        · simpa [validateAttendanceActionS] using
            getStateS_clean user now currentHour isToday s hclean
      · split
        · split
          · simpa [validateAttendanceActionS] using
              getStateS_clean user now currentHour isToday s hclean
          · simpa [validateAttendanceActionS] using
              getStateS_clean user now currentHour isToday s hclean
        · split
          · simpa using hclean
          · split
            · exact hclean
            · split
              · exact getStateS_clean user now currentHour isToday s hclean
              · split
                · exact hclean
                · exact hclean
  · intro es a p hp
    simp only [validateAttendanceAction, hp]
    split_ifs <;> simp
  · intro sess lr tr now2 h2 hp
    refine ⟨?_, ?_, ?_⟩ <;> simp [computeEmployeeState, hp]

/-- Witness for C9: handling an "entrada" command from the initial empty
system state leaves the session map free of pending actions. -/
theorem handler_never_sets_session_pending_witness :
    SessionsClean (handleMessage distZeroFar pfNone AUTHORIZED_LOCATIONS
      "5491111111111" (.text "entrada") 36000000 10 (fun _ => true)
      emptySys).sessions :=
  (handler_never_sets_session_pending distZeroFar pfNone AUTHORIZED_LOCATIONS
    "5491111111111" (.text "entrada") 36000000 10 (fun _ => true) emptySys
    (fun _ _ h => Option.noConfusion h)).1
